import Mathlib

/-!
Shallow embedding of `openstack_dashboard/dashboards/admin/flavors/workflows.py`.

Remote API calls (`api.nova.*`, `api.keystone.*`) are external collaborators;
each handler is embedded as a pure function from an environment assigning a
result (`Except Unit _`, `.error` meaning the call raised) to each remote call,
to an outcome recording the boolean the handler returns, the ordered trace of
remote calls it issued, and the user-facing messages it surfaced via
`exceptions.handle`.
-/

set_option autoImplicit false

namespace Horizon

/-- A flavor object as returned by `api.nova.flavor_list`, `flavor_get` and
`flavor_create`: the module reads its `id`, `name` and `is_public` fields. -/
structure Flavor where
  id : String
  name : String
  is_public : Bool
  deriving DecidableEq, Repr

/-- A keystone project as returned by `api.keystone.tenant_list`:
the module reads `id` and `name`. -/
structure Project where
  id : String
  name : String
  deriving DecidableEq, Repr

/-- An entry of `api.nova.flavor_access_list`: the module reads `tenant_id`. -/
structure AccessEntry where
  tenant_id : String
  deriving DecidableEq, Repr

/-- One remote API call, with the arguments the module passes. -/
inductive Call where
  | tenantList
  | flavorGet (fid : String)
  | accessList (fid : String)
  | getExtras (fid : String)
  | flavorDelete (fid : String)
  | flavorCreate (name : String) (memory vcpu disk ephemeral swap : Nat)
      (flavorid : String) (is_public : Bool)
  | extraSet (fid : String) (extras : List (String × String))
  | addTenant (fid : String) (project : String)
  deriving DecidableEq, Repr

/-! ## Step validation (`clean`) -/

/-- Result of an action's `clean`: success, a raised `ValidationError`
carrying the offending value, or the re-raised flavor-listing failure. -/
inductive CleanResult where
  | ok
  | nameConflict (name : String)
  | idConflict (fid : String)
  | listingFailure
  deriving DecidableEq, Repr

/-- The conflict loop of `CreateFlavorInfoAction.clean` (lines 75-85):
for each listed flavor, first the name is compared, then the id; the first
match raises the corresponding `ValidationError`. -/
def createConflictLoop (name fid : String) : List Flavor → CleanResult
  | [] => .ok
  | f :: fs =>
    if f.name = name then .nameConflict name
    else if f.id = fid then .idConflict fid
    else createConflictLoop name fid fs

/-- `CreateFlavorInfoAction.clean` (lines 62-86). A failing
`api.nova.flavor_list` sets `flavors = []` and surfaces a warning but then
re-raises (`raise`), so the failure propagates out of `clean`. -/
def createClean (listing : Except Unit (List Flavor)) (name fid : String) :
    CleanResult :=
  match listing with
  | .error _ => .listingFailure
  | .ok flavors => createConflictLoop name fid flavors

/-- The conflict loop of `UpdateFlavorInfoAction.clean` (lines 240-245):
only the name is checked, and a flavor whose id equals the submitted
(hidden, prior) id is exempt. -/
def updateConflictLoop (name fid : String) : List Flavor → CleanResult
  | [] => .ok
  | f :: fs =>
    if f.name = name ∧ f.id ≠ fid then .nameConflict name
    else updateConflictLoop name fid fs

/-- `UpdateFlavorInfoAction.clean` (lines 229-246); the listing-failure
branch is identical to the create path and re-raises. -/
def updateClean (listing : Except Unit (List Flavor)) (name fid : String) :
    CleanResult :=
  match listing with
  | .error _ => .listingFailure
  | .ok flavors => updateConflictLoop name fid flavors

/-! ## Finalize handlers -/

/-- What a finalize handler produced: its returned boolean, the ordered
trace of remote calls it issued, and the messages passed to
`exceptions.handle`. -/
structure HandleOutcome where
  success : Bool
  calls : List Call
  messages : List String
  deriving DecidableEq, Repr

/-- The per-project grant loop shared by both handlers: each
`api.nova.add_tenant_to_flavor` call is attempted inside its own
`try/except`, a failure only adding a user-facing message. -/
def grantLoop (grant : String → Except Unit Unit) (fid : String)
    (msg : String → String) : List String → List Call × List String
  | [] => ([], [])
  | p :: ps =>
    let rest := grantLoop grant fid msg ps
    match grant p with
    | .ok _ => (Call.addTenant fid p :: rest.1, rest.2)
    | .error _ => (Call.addTenant fid p :: rest.1, msg p :: rest.2)

/-- The validated context handed to `CreateFlavor.handle`. -/
structure CreateData where
  name : String
  memory_mb : Nat
  vcpus : Nat
  disk_gb : Nat
  eph_gb : Nat
  swap_mb : Nat
  flavor_id : String
  flavor_access : List String
  deriving Repr

/-- Results of the remote calls `CreateFlavor.handle` can make. -/
structure CreateEnv where
  create_result : Except Unit Flavor
  grant_result : String → Except Unit Unit

/-- `CreateFlavor.handle` (lines 189-218): default a blank id to the
string auto, compute `is_public` as emptiness of the access selection,
call `flavor_create`; on failure surface a message and return `False`;
on success grant access per selected project and return `True`. -/
def createHandle (env : CreateEnv) (data : CreateData) : HandleOutcome :=
  let fid := if data.flavor_id = "" then "auto" else data.flavor_id
  let is_public := data.flavor_access.isEmpty
  let createCall := Call.flavorCreate data.name data.memory_mb data.vcpus
      data.disk_gb data.eph_gb data.swap_mb fid is_public
  match env.create_result with
  | .error _ =>
    { success := false
      calls := [createCall]
      messages := ["Unable to create flavor."] }
  | .ok obj =>
    let grants := grantLoop env.grant_result obj.id
        (fun p => "Unable to set flavor access for project " ++ p ++ ".")
        data.flavor_access
    { success := true
      calls := createCall :: grants.1
      messages := grants.2 }

/-- The validated context handed to `UpdateFlavor.handle`. -/
structure UpdateData where
  name : String
  memory_mb : Nat
  vcpus : Nat
  disk_gb : Nat
  eph_gb : Nat
  swap_mb : Nat
  flavor_id : String
  flavor_access : List String
  deriving Repr

/-- Results of the remote calls `UpdateFlavor.handle` can make. -/
structure UpdateEnv where
  extras_result : Except Unit (List (String × String))
  delete_result : Except Unit Unit
  create_result : Except Unit Flavor
  extra_set_result : Except Unit Unit
  grant_result : String → Except Unit Unit

/-- Failure message of the update grant loop (same text for each project). -/
def updateGrantMsg : String :=
  "Modified flavor information, but unable to modify flavor access."

/-- `UpdateFlavor.handle` (lines 273-313). Inside one `try/except`:
read the existing extra specs, delete the existing flavor, create the
replacement (the nova client generates a fresh id, the call passing no
`flavorid` so the collaborator default auto applies), and reapply the
extra specs when the retained dict is non-empty; any failure in that
scope returns `False` (`exceptions.handle(ignore=True)` adds no
message). Afterwards grant access per project and return `True`. -/
def updateHandle (env : UpdateEnv) (data : UpdateData) : HandleOutcome :=
  let is_public := data.flavor_access.isEmpty
  let fid := data.flavor_id
  match env.extras_result with
  | .error _ => { success := false, calls := [Call.getExtras fid], messages := [] }
  | .ok extras_dict =>
    match env.delete_result with
    | .error _ =>
      { success := false
        calls := [Call.getExtras fid, Call.flavorDelete fid]
        messages := [] }
    | .ok _ =>
      let createCall := Call.flavorCreate data.name data.memory_mb data.vcpus
          data.disk_gb data.eph_gb data.swap_mb "auto" is_public
      match env.create_result with
      | .error _ =>
        { success := false
          calls := [Call.getExtras fid, Call.flavorDelete fid, createCall]
          messages := [] }
      | .ok flavor =>
        if extras_dict.isEmpty then
          let grants := grantLoop env.grant_result flavor.id
              (fun _ => updateGrantMsg) data.flavor_access
          { success := true
            calls := [Call.getExtras fid, Call.flavorDelete fid, createCall]
              ++ grants.1
            messages := grants.2 }
        else
          match env.extra_set_result with
          | .error _ =>
            { success := false
              calls := [Call.getExtras fid, Call.flavorDelete fid, createCall,
                Call.extraSet flavor.id extras_dict]
              messages := [] }
          | .ok _ =>
            let grants := grantLoop env.grant_result flavor.id
                (fun _ => updateGrantMsg) data.flavor_access
            { success := true
              calls := [Call.getExtras fid, Call.flavorDelete fid, createCall,
                Call.extraSet flavor.id extras_dict] ++ grants.1
              messages := grants.2 }

/-! ## Access-step pre-population -/

/-- Results of the remote calls `UpdateFlavorAccessAction.__init__` can make. -/
structure AccessEnv where
  tenant_list_result : Except Unit (List Project)
  flavor_get_result : Except Unit Flavor
  access_list_result : Except Unit (List AccessEntry)

/-- What the access action's constructor produced: its call trace, the
choice list of the member field, the `initial` value set on that field
(`none` when the POST early-return skips the assignment), and the
surfaced error messages. -/
structure AccessInitOutcome where
  calls : List Call
  choices : List (String × String)
  initialMembers : Option (List String)
  messages : List String
  deriving DecidableEq, Repr

/-- `UpdateFlavorAccessAction.__init__` (lines 101-146): list all projects
(failure handled, leaving the list empty); on a POST request return before
any flavor fetch; otherwise, when the context carries a truthy flavor id,
fetch the flavor and, when it is not public, its access list, and set the
member field's `initial` to the fetched tenant ids (empty on any handled
failure). -/
def accessActionInit (env : AccessEnv) (isPost : Bool)
    (flavorId : Option String) : AccessInitOutcome :=
  let errMsg := "Unable to retrieve flavor access list. Please try again later."
  let tl : List Project × List String :=
    match env.tenant_list_result with
    | .ok ps => (ps, [])
    | .error _ => ([], [errMsg])
  let choices := tl.1.map (fun p => (p.id, p.name))
  if isPost then
    { calls := [Call.tenantList], choices := choices
      initialMembers := none, messages := tl.2 }
  else
    let fid := flavorId.getD ""
    if fid = "" then
      { calls := [Call.tenantList], choices := choices
        initialMembers := some [], messages := tl.2 }
    else
      match env.flavor_get_result with
      | .error _ =>
        { calls := [Call.tenantList, Call.flavorGet fid], choices := choices
          initialMembers := some [], messages := tl.2 ++ [errMsg] }
      | .ok fl =>
        if fl.is_public then
          { calls := [Call.tenantList, Call.flavorGet fid], choices := choices
            initialMembers := some [], messages := tl.2 }
        else
          match env.access_list_result with
          | .error _ =>
            { calls := [Call.tenantList, Call.flavorGet fid, Call.accessList fid]
              choices := choices
              initialMembers := some [], messages := tl.2 ++ [errMsg] }
          | .ok entries =>
            { calls := [Call.tenantList, Call.flavorGet fid, Call.accessList fid]
              choices := choices
              initialMembers := some (entries.map (fun e => e.tenant_id))
              messages := tl.2 }

/-! ## Trace observations -/

/-- Is this call a `flavor_create`? -/
def Call.isCreate : Call → Bool
  | .flavorCreate _ _ _ _ _ _ _ _ => true
  | _ => false

/-- Is this call a `flavor_delete`? -/
def Call.isDelete : Call → Bool
  | .flavorDelete _ => true
  | _ => false

/-- Is this call an `add_tenant_to_flavor` grant? -/
def Call.isGrant : Call → Bool
  | .addTenant _ _ => true
  | _ => false

/-- Is this call a `flavor_extra_set`? -/
def Call.isExtraSet : Call → Bool
  | .extraSet _ _ => true
  | _ => false

/-- Is this call a `flavor_get`? -/
def Call.isFlavorGet : Call → Bool
  | .flavorGet _ => true
  | _ => false

/-- Is this call a `flavor_access_list`? -/
def Call.isAccessList : Call → Bool
  | .accessList _ => true
  | _ => false

/-- Number of `flavor_create` calls in a trace. -/
def createCount (t : List Call) : Nat := (t.filter Call.isCreate).length

/-- Number of `flavor_delete` calls in a trace. -/
def deleteCount (t : List Call) : Nat := (t.filter Call.isDelete).length

/-- Number of grant calls in a trace. -/
def grantCount (t : List Call) : Nat := (t.filter Call.isGrant).length

/-- Number of `flavor_extra_set` calls in a trace. -/
def extraSetCount (t : List Call) : Nat := (t.filter Call.isExtraSet).length

/-- The `is_public` flags of the `flavor_create` calls of a trace, in order. -/
def createPublicFlags (t : List Call) : List Bool :=
  t.filterMap fun c =>
    match c with
    | Call.flavorCreate _ _ _ _ _ _ _ p => some p
    | _ => none

/-- The `flavorid` arguments of the `flavor_create` calls of a trace. -/
def createIds (t : List Call) : List String :=
  t.filterMap fun c =>
    match c with
    | Call.flavorCreate _ _ _ _ _ _ fid _ => some fid
    | _ => none

/-! ## Shared example inputs -/

/-- A sample validated update context (empty access selection). -/
def sampleUpdateData : UpdateData :=
  { name := "m1.small", memory_mb := 2048, vcpus := 1, disk_gb := 20,
    eph_gb := 0, swap_mb := 0, flavor_id := "7", flavor_access := [] }

/-- A sample validated update context selecting two projects. -/
def sampleUpdateData2 : UpdateData :=
  { name := "m1.small", memory_mb := 2048, vcpus := 1, disk_gb := 20,
    eph_gb := 0, swap_mb := 0, flavor_id := "7", flavor_access := ["p1", "p2"] }

/-- A sample validated create context (blank id, two projects selected). -/
def sampleCreateData : CreateData :=
  { name := "m1.small", memory_mb := 2048, vcpus := 1, disk_gb := 20,
    eph_gb := 0, swap_mb := 0, flavor_id := "", flavor_access := ["p1", "p2"] }

/-- A create environment in which every remote call succeeds. -/
def envCreateOk : CreateEnv :=
  { create_result := .ok ⟨"42", "m1.small", false⟩
    grant_result := fun _ => .ok () }

/-- An update environment in which every remote call succeeds and the
original flavor carries one extra spec. -/
def envUpdateOk : UpdateEnv :=
  { extras_result := .ok [("k1", "v1")], delete_result := .ok ()
    create_result := .ok ⟨"43", "m1.small", false⟩
    extra_set_result := .ok (), grant_result := fun _ => .ok () }

/-- An update environment in which only `flavor_delete` fails. -/
def envDeleteFail : UpdateEnv :=
  { extras_result := .ok [], delete_result := .error ()
    create_result := .ok ⟨"42", "m1.small", true⟩
    extra_set_result := .ok (), grant_result := fun _ => .ok () }

/-- An update environment in which deletion succeeds and `flavor_create`
fails. -/
def envCreateFail : UpdateEnv :=
  { extras_result := .ok [], delete_result := .ok ()
    create_result := .error ()
    extra_set_result := .ok (), grant_result := fun _ => .ok () }

/-- An update environment in which only `flavor_get_extras` fails. -/
def envExtrasFail : UpdateEnv :=
  { extras_result := .error (), delete_result := .ok ()
    create_result := .ok ⟨"42", "m1.small", true⟩
    extra_set_result := .ok (), grant_result := fun _ => .ok () }

/-- An update environment in which only `flavor_extra_set` fails. -/
def envExtraSetFail : UpdateEnv :=
  { extras_result := .ok [("k1", "v1")], delete_result := .ok ()
    create_result := .ok ⟨"43", "m1.small", true⟩
    extra_set_result := .error (), grant_result := fun _ => .ok () }

/-- An access environment with one project and a non-public flavor. -/
def envAccess : AccessEnv :=
  { tenant_list_result := .ok [⟨"p1", "proj one"⟩]
    flavor_get_result := .ok ⟨"7", "m1.small", false⟩
    access_list_result := .ok [⟨"p1"⟩] }

/-! ## Helper lemmas about the grant loop -/

/-- The calls issued by the grant loop do not depend on which grants fail:
they are exactly one `add_tenant_to_flavor` per selected project. -/
theorem grantLoop_calls (g : String → Except Unit Unit) (fid : String)
    (msg : String → String) (ps : List String) :
    (grantLoop g fid msg ps).1 = ps.map (fun p => Call.addTenant fid p) := by
  induction ps with
  | nil => rfl
  | cons p ps ih =>
    simp only [grantLoop]
    cases g p <;> simp [ih]

/-- A block of grant calls contains that many grants. -/
theorem grantCount_addTenant_map (fid : String) (ps : List String) :
    grantCount (ps.map (fun p => Call.addTenant fid p)) = ps.length := by
  induction ps with
  | nil => rfl
  | cons p ps ih =>
    simp only [List.map_cons, grantCount, List.filter_cons] at ih ⊢
    simp [Call.isGrant, ih]

/-- A block of grant calls contains no `flavor_create`. -/
theorem createPublicFlags_addTenant_map (fid : String) (ps : List String) :
    createPublicFlags (ps.map (fun p => Call.addTenant fid p)) = [] := by
  induction ps with
  | nil => rfl
  | cons p ps ih => simp [createPublicFlags, ih]

/-- A block of grant calls contributes no `flavorid` argument. -/
theorem createIds_addTenant_map (fid : String) (ps : List String) :
    createIds (ps.map (fun p => Call.addTenant fid p)) = [] := by
  induction ps with
  | nil => rfl
  | cons p ps ih => simp [createIds, ih]

/-- A block of grant calls contains no `flavor_extra_set`. -/
theorem extraSetCount_addTenant_map (fid : String) (ps : List String) :
    extraSetCount (ps.map (fun p => Call.addTenant fid p)) = 0 := by
  induction ps with
  | nil => rfl
  | cons p ps ih =>
    simp only [List.map_cons, extraSetCount, List.filter_cons] at ih ⊢
    simp [Call.isExtraSet, ih]

/-! ## Helper lemmas about the conflict loops -/

/-- A listed name match makes the create conflict loop raise. -/
theorem createConflictLoop_name_ne_ok (name fid : String) (flavors : List Flavor)
    (h : ∃ f ∈ flavors, f.name = name) :
    createConflictLoop name fid flavors ≠ .ok := by
  induction flavors with
  | nil => simp at h
  | cons f fs ih =>
    simp only [createConflictLoop]
    by_cases h1 : f.name = name
    · simp [h1]
    · by_cases h2 : f.id = fid
      · simp [h1, h2]
      · rcases h with ⟨g, hg, hn⟩
        rcases List.mem_cons.mp hg with rfl | hgs
        · exact absurd hn h1
        · simpa [h1, h2] using ih ⟨g, hgs, hn⟩

/-- When no listed id matches, a name match is reported as a name conflict. -/
theorem createConflictLoop_name_conflict (name fid : String)
    (flavors : List Flavor) (h : ∃ f ∈ flavors, f.name = name)
    (hid : ∀ f ∈ flavors, f.id ≠ fid) :
    createConflictLoop name fid flavors = .nameConflict name := by
  induction flavors with
  | nil => simp at h
  | cons f fs ih =>
    simp only [createConflictLoop]
    by_cases h1 : f.name = name
    · simp [h1]
    · have h2 : f.id ≠ fid := hid f (List.mem_cons_self f fs)
      rcases h with ⟨g, hg, hn⟩
      rcases List.mem_cons.mp hg with rfl | hgs
      · exact absurd hn h1
      · simpa [h1, h2] using
          ih ⟨g, hgs, hn⟩ (fun x hx => hid x (List.mem_cons_of_mem f hx))

/-- A listed id match makes the create conflict loop raise. -/
theorem createConflictLoop_id_ne_ok (name fid : String) (flavors : List Flavor)
    (h : ∃ f ∈ flavors, f.id = fid) :
    createConflictLoop name fid flavors ≠ .ok := by
  induction flavors with
  | nil => simp at h
  | cons f fs ih =>
    simp only [createConflictLoop]
    by_cases h1 : f.name = name
    · simp [h1]
    · by_cases h2 : f.id = fid
      · simp [h1, h2]
      · rcases h with ⟨g, hg, hn⟩
        rcases List.mem_cons.mp hg with rfl | hgs
        · exact absurd hn h2
        · simpa [h1, h2] using ih ⟨g, hgs, hn⟩

/-- When no listed name matches, an id match is reported as an id conflict. -/
theorem createConflictLoop_id_conflict (name fid : String)
    (flavors : List Flavor) (hname : ∀ f ∈ flavors, f.name ≠ name)
    (h : ∃ f ∈ flavors, f.id = fid) :
    createConflictLoop name fid flavors = .idConflict fid := by
  induction flavors with
  | nil => simp at h
  | cons f fs ih =>
    simp only [createConflictLoop]
    have h1 : f.name ≠ name := hname f (List.mem_cons_self f fs)
    by_cases h2 : f.id = fid
    · simp [h1, h2]
    · rcases h with ⟨g, hg, hn⟩
      rcases List.mem_cons.mp hg with rfl | hgs
      · exact absurd hn h2
      · simpa [h1, h2] using
          ih (fun x hx => hname x (List.mem_cons_of_mem f hx)) ⟨g, hgs, hn⟩

/-- A name match on a flavor other than the one being edited makes the
update conflict loop raise a name conflict. -/
theorem updateConflictLoop_name_conflict (name fid : String)
    (flavors : List Flavor) (h : ∃ f ∈ flavors, f.name = name ∧ f.id ≠ fid) :
    updateConflictLoop name fid flavors = .nameConflict name := by
  induction flavors with
  | nil => simp at h
  | cons f fs ih =>
    simp only [updateConflictLoop]
    by_cases hc : f.name = name ∧ f.id ≠ fid
    · simp [hc]
    · rcases h with ⟨g, hg, hp⟩
      rcases List.mem_cons.mp hg with rfl | hgs
      · exact absurd hp hc
      · simpa [hc] using ih ⟨g, hgs, hp⟩

/-- The update conflict loop never produces an id conflict. -/
theorem updateConflictLoop_no_idConflict (name fid : String)
    (flavors : List Flavor) (i : String) :
    updateConflictLoop name fid flavors ≠ .idConflict i := by
  induction flavors with
  | nil => simp [updateConflictLoop]
  | cons f fs ih =>
    simp only [updateConflictLoop]
    by_cases hc : f.name = name ∧ f.id ≠ fid
    · simp [hc]
    · simpa [hc] using ih

/-! ## Claims -/

/-- C1: in `UpdateFlavor.handle`, once the extras read has succeeded, a
failing `flavor_delete` means no `flavor_create` is issued and the handler
returns `False`; and a successful delete followed by a failing
`flavor_create` means the handler returns `False` with the delete issued
and exactly one (the failed) create call in the trace — no compensating
re-creation of the prior flavor. -/
theorem update_delete_create_failure_scope (env : UpdateEnv)
    (data : UpdateData) (e : List (String × String))
    (hextras : env.extras_result = .ok e) :
    (env.delete_result = .error () →
      (updateHandle env data).success = false ∧
      createCount (updateHandle env data).calls = 0) ∧
    (env.delete_result = .ok () → env.create_result = .error () →
      (updateHandle env data).success = false ∧
      deleteCount (updateHandle env data).calls = 1 ∧
      createCount (updateHandle env data).calls = 1) := by
  constructor
  · intro hd
    simp [updateHandle, hextras, hd, createCount, Call.isCreate]
  · intro hd hc
    simp [updateHandle, hextras, hd, hc, createCount, deleteCount,
      Call.isCreate, Call.isDelete]

/-- C1 witness: concrete runs of both failure shapes. -/
theorem update_delete_create_failure_scope_witness :
    ((updateHandle envDeleteFail sampleUpdateData).success = false ∧
      createCount (updateHandle envDeleteFail sampleUpdateData).calls = 0) ∧
    ((updateHandle envCreateFail sampleUpdateData).success = false ∧
      deleteCount (updateHandle envCreateFail sampleUpdateData).calls = 1 ∧
      createCount (updateHandle envCreateFail sampleUpdateData).calls = 1) :=
  ⟨(update_delete_create_failure_scope envDeleteFail sampleUpdateData [] rfl).1
      rfl,
   (update_delete_create_failure_scope envCreateFail sampleUpdateData [] rfl).2
      rfl rfl⟩

/-- C2 counterexample: with a failing `flavor_get_extras` and every other
call able to succeed, the handler returns `False` and issues neither the
delete nor the create — the replace does not proceed, contradicting the
claim that a failed retained-attributes read merely leaves the attributes
absent while the replace still goes ahead. -/
theorem update_extras_read_aborts_cx :
    (updateHandle envExtrasFail sampleUpdateData).success = false ∧
    createCount (updateHandle envExtrasFail sampleUpdateData).calls = 0 ∧
    deleteCount (updateHandle envExtrasFail sampleUpdateData).calls = 0 :=
  ⟨rfl, rfl, rfl⟩

/-- C2 (amended): when the retained-attributes read succeeds and the
handler succeeds, a non-empty attribute set is reapplied, unchanged, to
the replacement flavor (and an empty one leads to no set call); when the
read fails, the handler returns `False` and neither the delete nor the
create is issued — the replace does not proceed. -/
theorem update_extras_propagation (env : UpdateEnv) (data : UpdateData) :
    (∀ e f, env.extras_result = .ok e → env.create_result = .ok f →
      (updateHandle env data).success = true →
      (e = [] → extraSetCount (updateHandle env data).calls = 0) ∧
      (e ≠ [] → Call.extraSet f.id e ∈ (updateHandle env data).calls)) ∧
    (env.extras_result = .error () →
      (updateHandle env data).success = false ∧
      createCount (updateHandle env data).calls = 0 ∧
      deleteCount (updateHandle env data).calls = 0) := by
  constructor
  · intro e f he hc hs
    cases hd : env.delete_result with
    | error u => simp [updateHandle, he, hd] at hs
    | ok u =>
      by_cases hemp : e = []
      · subst hemp
        refine ⟨fun _ => ?_, fun hne => absurd rfl hne⟩
        simp [updateHandle, he, hd, hc, extraSetCount, Call.isExtraSet,
          grantLoop_calls, List.filter_append, extraSetCount_addTenant_map]
      · have hempb : e.isEmpty = false := by
          cases e with
          | nil => exact absurd rfl hemp
          | cons a t => rfl
        cases hx : env.extra_set_result with
        | error u2 => simp [updateHandle, he, hd, hc, hempb, hx] at hs
        | ok u2 =>
          refine ⟨fun habs => absurd habs hemp, fun _ => ?_⟩
          simp [updateHandle, he, hd, hc, hempb, hx]
  · intro he
    simp [updateHandle, he, createCount, deleteCount, Call.isCreate,
      Call.isDelete]

/-- C2 witness: a concrete successful replace carrying one extra spec over
to the new flavor id. -/
theorem update_extras_propagation_witness :
    Call.extraSet "43" [("k1", "v1")]
      ∈ (updateHandle envUpdateOk sampleUpdateData).calls :=
  (((update_extras_propagation envUpdateOk sampleUpdateData).1
      [("k1", "v1")] ⟨"43", "m1.small", false⟩ rfl rfl rfl).2 (by decide))

/-- C3 counterexample: a failing flavor listing makes both `clean`
variants re-raise (`listingFailure`) rather than pass with an empty
listing, so validation does not continue. -/
theorem clean_listing_failure_cx :
    createClean (.error ()) "m1.small" "auto" = .listingFailure ∧
    createClean (.error ()) "m1.small" "auto" ≠ .ok ∧
    updateClean (.error ()) "m1.small" "7" ≠ .ok :=
  ⟨rfl, by decide, by decide⟩

/-- C3 (amended): when the remote flavor listing fails, both `clean`
variants set the listing to empty and surface a warning but then
re-raise: for every submitted name and id the result is the propagated
listing failure, never a pass, in both the create and update paths. -/
theorem clean_listing_failure_propagates (name fid : String) :
    createClean (.error ()) name fid = .listingFailure ∧
    updateClean (.error ()) name fid = .listingFailure :=
  ⟨rfl, rfl⟩

/-- C4 counterexample: in the update path, a submitted name equal to the
name of the flavor being edited itself (matching id) passes validation,
so a listed-name match does not always fail regardless of id. -/
theorem update_own_name_allowed_cx :
    updateClean (.ok [{ id := "5", name := "tiny", is_public := true }])
      "tiny" "5" = .ok := by decide

/-- C4 (amended): in the create path a submitted name matching any listed
flavor's name always fails validation, and is reported as a name conflict
whenever no listed id also matches; in the update path a name match fails
(with a name conflict) exactly when the matching flavor's id differs from
the submitted (prior) id — keeping the flavor's own name passes. -/
theorem name_conflict_validation (flavors : List Flavor) (name fid : String) :
    ((∃ f ∈ flavors, f.name = name) →
      createClean (.ok flavors) name fid ≠ .ok) ∧
    ((∃ f ∈ flavors, f.name = name) → (∀ f ∈ flavors, f.id ≠ fid) →
      createClean (.ok flavors) name fid = .nameConflict name) ∧
    ((∃ f ∈ flavors, f.name = name ∧ f.id ≠ fid) →
      updateClean (.ok flavors) name fid = .nameConflict name) :=
  ⟨fun h => createConflictLoop_name_ne_ok name fid flavors h,
   fun h hid => createConflictLoop_name_conflict name fid flavors h hid,
   fun h => updateConflictLoop_name_conflict name fid flavors h⟩

/-- C4 witness: a concrete name conflict with a distinct id, failing in
both paths. -/
theorem name_conflict_validation_witness :
    createClean (.ok [{ id := "1", name := "tiny", is_public := true }])
        "tiny" "9" = .nameConflict "tiny" ∧
    updateClean (.ok [{ id := "1", name := "tiny", is_public := true }])
        "tiny" "9" = .nameConflict "tiny" :=
  ⟨(name_conflict_validation
      [{ id := "1", name := "tiny", is_public := true }] "tiny" "9").2.1
      (by decide) (by decide),
   (name_conflict_validation
      [{ id := "1", name := "tiny", is_public := true }] "tiny" "9").2.2
      (by decide)⟩

/-- C5 counterexample: a submitted id matching a listed flavor whose name
also matches is reported as a name conflict, not an id conflict, so the
create path does not always fail with an id-conflict error on an id
match. -/
theorem create_id_conflict_masked_cx :
    createClean (.ok [{ id := "7", name := "tiny", is_public := true }])
        "tiny" "7" = .nameConflict "tiny" ∧
    createClean (.ok [{ id := "7", name := "tiny", is_public := true }])
        "tiny" "7" ≠ .idConflict "7" :=
  ⟨by decide, by decide⟩

/-- C5 (amended): in the create path a submitted id matching any listed
flavor's id always fails validation, and is reported as an id conflict
whenever no listed name matches the submitted name; the update path
performs no id-conflict check at all — its validation never produces an
id-conflict error. -/
theorem id_conflict_validation (flavors : List Flavor) (name fid : String) :
    ((∃ f ∈ flavors, f.id = fid) →
      createClean (.ok flavors) name fid ≠ .ok) ∧
    ((∀ f ∈ flavors, f.name ≠ name) → (∃ f ∈ flavors, f.id = fid) →
      createClean (.ok flavors) name fid = .idConflict fid) ∧
    (∀ i, updateClean (.ok flavors) name fid ≠ .idConflict i) :=
  ⟨fun h => createConflictLoop_id_ne_ok name fid flavors h,
   fun hname h => createConflictLoop_id_conflict name fid flavors hname h,
   fun i => updateConflictLoop_no_idConflict name fid flavors i⟩

/-- C6: in both handlers the `is_public` flag passed to `flavor_create`
is exactly the emptiness of the access selection, and on a successful run
exactly one grant call is issued per selected project (so an empty
selection yields a public flavor and no grants). -/
theorem access_selection_drives_public_and_grants (cenv : CreateEnv)
    (cdata : CreateData) (uenv : UpdateEnv) (udata : UpdateData) :
    createPublicFlags (createHandle cenv cdata).calls
        = [cdata.flavor_access.isEmpty] ∧
    ((createHandle cenv cdata).success = true →
      grantCount (createHandle cenv cdata).calls
          = cdata.flavor_access.length) ∧
    ((updateHandle uenv udata).success = true →
      createPublicFlags (updateHandle uenv udata).calls
          = [udata.flavor_access.isEmpty] ∧
      grantCount (updateHandle uenv udata).calls
          = udata.flavor_access.length) := by
  refine ⟨?_, ?_, ?_⟩
  · cases hc : cenv.create_result with
    | error u => simp [createHandle, hc, createPublicFlags]
    | ok f =>
      simp [createHandle, hc, createPublicFlags, grantLoop_calls]
  · intro hs
    cases hc : cenv.create_result with
    | error u => simp [createHandle, hc] at hs
    | ok f =>
      simp [createHandle, hc, grantCount, Call.isGrant, grantLoop_calls]
      have := grantCount_addTenant_map f.id cdata.flavor_access
      simpa [grantCount] using this
  · intro hs
    cases he : uenv.extras_result with
    | error u => simp [updateHandle, he] at hs
    | ok e =>
      cases hd : uenv.delete_result with
      | error u => simp [updateHandle, he, hd] at hs
      | ok u =>
        cases hc : uenv.create_result with
        | error u2 => simp [updateHandle, he, hd, hc] at hs
        | ok f =>
          by_cases hemp : e.isEmpty
          · constructor
            · simp [updateHandle, he, hd, hc, hemp, createPublicFlags,
                grantLoop_calls, createPublicFlags_addTenant_map]
            · simp [updateHandle, he, hd, hc, hemp, grantCount, Call.isGrant,
                grantLoop_calls]
              have := grantCount_addTenant_map f.id udata.flavor_access
              simpa [grantCount] using this
          · cases hx : uenv.extra_set_result with
            | error u2 => simp [updateHandle, he, hd, hc, hemp, hx] at hs
            | ok u2 =>
              constructor
              · simp [updateHandle, he, hd, hc, hemp, hx, createPublicFlags,
                  grantLoop_calls, createPublicFlags_addTenant_map]
              · simp [updateHandle, he, hd, hc, hemp, hx, grantCount,
                  Call.isGrant, grantLoop_calls]
                have := grantCount_addTenant_map f.id udata.flavor_access
                simpa [grantCount] using this

/-- C6 witness: concrete successful runs with a two-project selection. -/
theorem access_selection_drives_public_and_grants_witness :
    grantCount (createHandle envCreateOk sampleCreateData).calls
        = sampleCreateData.flavor_access.length ∧
    grantCount (updateHandle envUpdateOk sampleUpdateData2).calls
        = sampleUpdateData2.flavor_access.length :=
  ⟨(access_selection_drives_public_and_grants envCreateOk sampleCreateData
      envUpdateOk sampleUpdateData2).2.1 rfl,
   ((access_selection_drives_public_and_grants envCreateOk sampleCreateData
      envUpdateOk sampleUpdateData2).2.2 rfl).2⟩

/-- C7: the grant results influence neither the call trace nor the
returned boolean of either handler (so one failing grant among N leaves
the other N-1 attempted and the reported outcome unchanged), and the
create handler returns `False` exactly when the `flavor_create` call
fails. -/
theorem grant_failures_isolated (cdata : CreateData)
    (cr : Except Unit Flavor) (g g' : String → Except Unit Unit)
    (uenv : UpdateEnv) (udata : UpdateData) :
    (createHandle ⟨cr, g⟩ cdata).calls = (createHandle ⟨cr, g'⟩ cdata).calls ∧
    (createHandle ⟨cr, g⟩ cdata).success
        = (createHandle ⟨cr, g'⟩ cdata).success ∧
    ((createHandle ⟨cr, g⟩ cdata).success = false ↔ cr = .error ()) ∧
    (updateHandle { uenv with grant_result := g } udata).calls
        = (updateHandle { uenv with grant_result := g' } udata).calls ∧
    (updateHandle { uenv with grant_result := g } udata).success
        = (updateHandle { uenv with grant_result := g' } udata).success := by
  refine ⟨?_, ?_, ?_, ?_, ?_⟩
  · cases cr with
    | error u => rfl
    | ok f => simp [createHandle, grantLoop_calls]
  · cases cr with
    | error u => rfl
    | ok f => rfl
  · cases cr with
    | error u => cases u; simp [createHandle]
    | ok f => simp [createHandle]
  · cases he : uenv.extras_result with
    | error u => simp [updateHandle, he]
    | ok e =>
      cases hd : uenv.delete_result with
      | error u => simp [updateHandle, he, hd]
      | ok u =>
        cases hc : uenv.create_result with
        | error u2 => simp [updateHandle, he, hd, hc]
        | ok f =>
          by_cases hemp : e.isEmpty
          · simp [updateHandle, he, hd, hc, hemp, grantLoop_calls]
          · cases hx : uenv.extra_set_result with
            | error u2 => simp [updateHandle, he, hd, hc, hemp, hx]
            | ok u2 => simp [updateHandle, he, hd, hc, hemp, hx,
                grantLoop_calls]
  · cases he : uenv.extras_result with
    | error u => simp [updateHandle, he]
    | ok e =>
      cases hd : uenv.delete_result with
      | error u => simp [updateHandle, he, hd]
      | ok u =>
        cases hc : uenv.create_result with
        | error u2 => simp [updateHandle, he, hd, hc]
        | ok f =>
          by_cases hemp : e.isEmpty
          · simp [updateHandle, he, hd, hc, hemp]
          · cases hx : uenv.extra_set_result with
            | error u2 => simp [updateHandle, he, hd, hc, hemp, hx]
            | ok u2 => simp [updateHandle, he, hd, hc, hemp, hx]

/-- C7 witness: a run in which the first of two grants fails issues both
grant calls and still reports success. -/
theorem grant_failures_isolated_witness :
    (createHandle
        ⟨Except.ok ⟨"42", "m1.small", false⟩,
         fun p => if p = "p1" then .error () else .ok ()⟩
        sampleCreateData).calls
      = (createHandle envCreateOk sampleCreateData).calls ∧
    (createHandle
        ⟨Except.ok ⟨"42", "m1.small", false⟩,
         fun p => if p = "p1" then .error () else .ok ()⟩
        sampleCreateData).success
      = (createHandle envCreateOk sampleCreateData).success :=
  ⟨(grant_failures_isolated sampleCreateData (Except.ok ⟨"42", "m1.small", false⟩)
      (fun p => if p = "p1" then .error () else .ok ()) (fun _ => .ok ())
      envUpdateOk sampleUpdateData2).1,
   (grant_failures_isolated sampleCreateData (Except.ok ⟨"42", "m1.small", false⟩)
      (fun p => if p = "p1" then .error () else .ok ()) (fun _ => .ok ())
      envUpdateOk sampleUpdateData2).2.1⟩

/-- C8: in `CreateFlavor.handle` a blank submitted id is replaced by the
auto sentinel: the (single) `flavor_create` call of the trace carries the
`flavorid` argument auto. -/
theorem create_blank_id_defaults_auto (env : CreateEnv) (data : CreateData)
    (h : data.flavor_id = "") :
    createIds (createHandle env data).calls = ["auto"] := by
  cases hc : env.create_result with
  | error u => simp [createHandle, hc, h, createIds]
  | ok f =>
    simp [createHandle, hc, h, createIds, grantLoop_calls]

/-- C8 witness: a concrete create with a blank id. -/
theorem create_blank_id_defaults_auto_witness :
    createIds (createHandle envCreateOk sampleCreateData).calls = ["auto"] :=
  create_blank_id_defaults_auto envCreateOk sampleCreateData rfl

/-- C9: when the extras read returns a non-empty dict and delete and
create succeed but `flavor_extra_set` fails, `UpdateFlavor.handle`
returns `False` despite the replacement flavor having been created, and
no grant calls are attempted. -/
theorem update_extra_set_failure_fails (env : UpdateEnv) (data : UpdateData)
    (e : List (String × String)) (f : Flavor)
    (he : env.extras_result = .ok e) (hne : e ≠ [])
    (hd : env.delete_result = .ok ()) (hc : env.create_result = .ok f)
    (hx : env.extra_set_result = .error ()) :
    (updateHandle env data).success = false ∧
    createCount (updateHandle env data).calls = 1 ∧
    grantCount (updateHandle env data).calls = 0 := by
  have hempb : e.isEmpty = false := by
    cases e with
    | nil => exact absurd rfl hne
    | cons a t => rfl
  simp [updateHandle, he, hd, hc, hx, hempb, createCount, grantCount,
    Call.isCreate, Call.isGrant]

/-- C9 witness: a concrete run with only the extra-spec reapply failing. -/
theorem update_extra_set_failure_fails_witness :
    (updateHandle envExtraSetFail sampleUpdateData).success = false ∧
    createCount (updateHandle envExtraSetFail sampleUpdateData).calls = 1 ∧
    grantCount (updateHandle envExtraSetFail sampleUpdateData).calls = 0 :=
  update_extra_set_failure_fails envExtraSetFail sampleUpdateData
    [("k1", "v1")] ⟨"43", "m1.small", true⟩ rfl (by decide) rfl rfl rfl

/-- C10: on a POST request the access action issues only the project
listing (no `flavor_get`, no `flavor_access_list`) and never sets the
member field's initial value; on a non-POST request with a truthy flavor
id it fetches the flavor, and also its access list when the flavor is not
public. -/
theorem access_prepopulation_only_non_post (env : AccessEnv)
    (flavorId : Option String) :
    ((accessActionInit env true flavorId).calls = [Call.tenantList] ∧
      (accessActionInit env true flavorId).initialMembers = none) ∧
    (∀ fid, flavorId = some fid → fid ≠ "" →
      Call.flavorGet fid ∈ (accessActionInit env false flavorId).calls ∧
      (∀ fl, env.flavor_get_result = .ok fl → fl.is_public = false →
        Call.accessList fid ∈ (accessActionInit env false flavorId).calls)) := by
  constructor
  · cases env.tenant_list_result <;> simp [accessActionInit]
  · intro fid hf hne
    subst hf
    constructor
    · cases ht : env.tenant_list_result with
      | error u =>
        cases hg : env.flavor_get_result with
        | error u2 => simp [accessActionInit, ht, hg, hne]
        | ok fl =>
          by_cases hp : fl.is_public
          · simp [accessActionInit, ht, hg, hne, hp]
          · cases hal : env.access_list_result <;>
              simp [accessActionInit, ht, hg, hne, hp, hal]
      | ok ps =>
        cases hg : env.flavor_get_result with
        | error u2 => simp [accessActionInit, ht, hg, hne]
        | ok fl =>
          by_cases hp : fl.is_public
          · simp [accessActionInit, ht, hg, hne, hp]
          · cases hal : env.access_list_result <;>
              simp [accessActionInit, ht, hg, hne, hp, hal]
    · intro fl hg hp
      cases ht : env.tenant_list_result <;>
        cases hal : env.access_list_result <;>
          simp [accessActionInit, ht, hg, hne, hp, hal]

/-- C10 witness: a concrete non-POST edit of a non-public flavor fetches
both the flavor and its access list. -/
theorem access_prepopulation_only_non_post_witness :
    Call.flavorGet "7" ∈ (accessActionInit envAccess false (some "7")).calls ∧
    Call.accessList "7" ∈ (accessActionInit envAccess false (some "7")).calls :=
  ⟨((access_prepopulation_only_non_post envAccess (some "7")).2 "7" rfl
      (by decide)).1,
   ((access_prepopulation_only_non_post envAccess (some "7")).2 "7" rfl
      (by decide)).2 ⟨"7", "m1.small", false⟩ rfl rfl⟩

/-- C5 witness: a concrete pure id conflict failing the create path. -/
theorem id_conflict_validation_witness :
    createClean (.ok [{ id := "7", name := "big", is_public := true }])
        "tiny" "7" = .idConflict "7" :=
  (id_conflict_validation
      [{ id := "7", name := "big", is_public := true }] "tiny" "7").2.1
    (by decide) (by decide)

end Horizon
